import Mathlib

/-!
Shallow embedding of the Livewire-style component protocol of the copper
repository (package chttp): the wire structures (livewire.go, part_000),
the HTML helpers updateHTML and htmlHash (livewire.go), and the renderer
entry points livewireInitial and livewireUpdate (part_001).

Modelling conventions:
* Byte strings (markup fragments, Go []byte) are lists of naturals; ASCII
  text is turned into bytes with asciiBytes.
* Fallible Go calls are embedded in GoResult: `ok` for a normal return,
  `err` for a returned non-nil error, and `panicked` for a Go runtime
  panic (the reflection calls in livewireUpdate panic rather than return
  errors when a method or field is missing).
* JSON documents (json.RawMessage) are modelled as parsed Json values;
  failures to parse raw bytes are below the granularity of this model.
* External capabilities (the template engine, goquery's parse/serialize,
  and the random id source) are parameters: fields of HTMLRenderer and
  HtmlLib, and a stream of naturals for randomness.
-/

/-- LivewireUpdatePayloadCallMethod (part_000, lines 54-58): the payload of a
"callMethod" update: {id, method, params}. -/
structure LivewireUpdatePayloadCallMethod where
  id : String
  method : String
  params : List String
deriving DecidableEq, Repr

/-- LivewireUpdatePayloadSyncInput (part_000, lines 60-64): the payload of a
"syncInput" update: {id, name, value}. -/
structure LivewireUpdatePayloadSyncInput where
  id : String
  name : String
  value : String
deriving DecidableEq, Repr

/-- Structured errors: each constructor stands for one cerrors.New call site
(or a stdlib error) in the embedded code, carrying the contextual fields the
Go code attaches. -/
inductive CErr where
  /-- "component does not exist" (part_001 lines 145-147 and 206-208). -/
  | componentDoesNotExist (name : String)
  /-- a json decoding type mismatch raised by encoding/json. -/
  | unmarshalTypeError (expected : String)
  /-- "failed to unmarshal data into its type" (part_001 lines 217-220). -/
  | failedUnmarshalData (cause : CErr)
  /-- "failed to unmarshal payload" (part_001 lines 231-234 and 254-257). -/
  | failedUnmarshalPayload (updateType : String) (cause : CErr)
  /-- "failed to call method on component" (part_001 lines 244-247): carries
  the component name and the payload that triggered it. -/
  | failedCallMethod (component : String)
      (payload : LivewireUpdatePayloadCallMethod) (cause : CErr)
  /-- "unknown update type" (part_001 lines 262-264). -/
  | unknownUpdateType (updateType : String)
  /-- "failed to execute html template" (part_001 lines 159-161 and 278-280). -/
  | failedExecuteTemplate (cause : CErr)
  /-- "failed to parse html" (livewire.go lines 80-82). -/
  | failedParseHtml (cause : CErr)
  /-- "failed to render html" inside updateHTML (livewire.go line 93). -/
  | failedRenderHtml (cause : CErr)
  /-- "failed to render html" wrapping updateHTML (part_001 lines 196 and 326). -/
  | failedRenderHtmlWrap (cause : CErr)
  /-- "failed to unmarshal data pre" (part_001 line 301). -/
  | failedUnmarshalPre (cause : CErr)
  /-- "failed to unmarshal data post" (part_001 line 306). -/
  | failedUnmarshalPost (cause : CErr)
  /-- an error raised by an abstract external capability (template engine,
  goquery, a component method). -/
  | capabilityError (msg : String)
deriving DecidableEq, Repr

/-- The outcome of a fallible Go call: a normal value, a returned non-nil
error, or a runtime panic. -/
inductive GoResult (α : Type) where
  | ok (a : α)
  | err (e : CErr)
  | panicked (msg : String)
deriving DecidableEq, Repr

/-- A JSON document, as encoding/json decodes one into interface{}: null,
bool, number, string, array, object. Numbers are modelled as integers (the
documents this code handles carry integral numbers); object field lists are
treated as maps with distinct keys. -/
inductive Json where
  | null
  | bool (b : Bool)
  | num (n : Int)
  | str (s : String)
  | arr (elements : List Json)
  | obj (fields : List (String × Json))
deriving Repr

/-- Go map indexing dataPost[k]: the value of the field named k. -/
def lookupField (k : String) : List (String × Json) → Option Json
  | [] => none
  | (k2, v) :: rest => if k2 == k then some v else lookupField k rest

/-- The key k appears among the fields. -/
def hasField (k : String) (fields : List (String × Json)) : Bool :=
  fields.any (fun kv => kv.fst == k)

mutual
/-- The number of constructors in a document (a recursion budget for
deepEqual below). -/
def Json.size : Json → Nat
  | .null => 1
  | .bool _ => 1
  | .num _ => 1
  | .str _ => 1
  | .arr xs => 1 + Json.sizeList xs
  | .obj fs => 1 + Json.sizeFields fs

/-- The number of constructors in an array's elements. -/
def Json.sizeList : List Json → Nat
  | [] => 0
  | x :: xs => 1 + Json.size x + Json.sizeList xs

/-- The number of constructors in an object's field values. -/
def Json.sizeFields : List (String × Json) → Nat
  | [] => 0
  | (_, v) :: rest => 1 + Json.size v + Json.sizeFields rest
end

mutual
/-- reflect.DeepEqual on two decoded JSON documents, with an explicit
recursion budget that decreases by one on every recursive call: structural
equality, with objects compared as maps — same key set, and a deep-equal
value at every key, independent of field order. (Key lists are treated as
duplicate-free, as Go map iteration always yields them.) -/
def Json.deepEqualFuel : Nat → Json → Json → Bool
  | _, Json.null, Json.null => true
  | _, Json.bool a, Json.bool b => a == b
  | _, Json.num a, Json.num b => a == b
  | _, Json.str a, Json.str b => a == b
  | fuel + 1, Json.arr a, Json.arr b => Json.deepEqualListFuel fuel a b
  | fuel + 1, Json.obj a, Json.obj b =>
      Json.objIncludedFuel fuel a b && b.all (fun kv => hasField kv.fst a)
  | _, _, _ => false

/-- Element-wise reflect.DeepEqual on two decoded JSON arrays. -/
def Json.deepEqualListFuel : Nat → List Json → List Json → Bool
  | _, [], [] => true
  | fuel + 1, a :: as2, b :: bs =>
      Json.deepEqualFuel fuel a b && Json.deepEqualListFuel fuel as2 bs
  | _, _, _ => false

/-- Every field of the first object exists in the second with a deep-equal
value. -/
def Json.objIncludedFuel : Nat → List (String × Json) → List (String × Json) → Bool
  | _, [], _ => true
  | fuel + 1, (k, v) :: rest, other =>
      Json.fieldEqualInFuel fuel k v other && Json.objIncludedFuel fuel rest other
  | 0, _ :: _, _ => false

/-- The field named k exists in the list and its value is deep-equal to v. -/
def Json.fieldEqualInFuel : Nat → String → Json → List (String × Json) → Bool
  | _, _, _, [] => false
  | fuel + 1, k, v, (k2, w) :: rest =>
      if k2 == k then Json.deepEqualFuel fuel v w
      else Json.fieldEqualInFuel fuel k v rest
  | 0, _, _, _ :: _ => false
end

/-- reflect.DeepEqual on two decoded JSON documents (part_001 line 316).
The combined size of the two documents strictly decreases along every
chain of recursive calls, so a budget of that combined size never runs
out and the function agrees with the budget-free recursion. -/
def Json.deepEqual (a b : Json) : Bool :=
  Json.deepEqualFuel (Json.size a + Json.size b) a b

/-- The type of one field of a component's declared data struct. The
components this code serves declare flat structs of strings and integers
(the spec's Counter example uses an int field); richer field types do not
change the reflection behaviour modelled here. -/
inductive FieldType where
  | tstr
  | tint
deriving DecidableEq, Repr

/-- One field value of a component's data struct. -/
inductive GoVal where
  | vstr (s : String)
  | vint (n : Int)
deriving DecidableEq, Repr

/-- The declared Go type of a field value. -/
def GoVal.fieldType : GoVal → FieldType
  | .vstr _ => .tstr
  | .vint _ => .tint

/-- The zero value of a field type (what reflect.New initialises and what
encoding/json leaves untouched for absent keys). -/
def FieldType.zeroVal : FieldType → GoVal
  | .tstr => .vstr ""
  | .tint => .vint 0

/-- A component's data value: the fields of its data struct, in declaration
order. -/
abbrev DataVal := List (String × GoVal)

/-- A component's declared data shape: field names and types in declaration
order (distinct names, as in any Go struct). -/
abbrev DataShape := List (String × FieldType)

/-- json.Marshal of one struct field value. -/
def GoVal.marshal : GoVal → Json
  | .vstr s => Json.str s
  | .vint n => Json.num n

/-- json.Marshal of a component data struct (part_001 lines 164 and 283): an
object with one field per struct field, in declaration order. -/
def marshalData (d : DataVal) : Json :=
  Json.obj (d.map (fun kv => (kv.fst, kv.snd.marshal)))

/-- The value of the data struct field named k. -/
def lookupGoVal (k : String) : DataVal → Option GoVal
  | [] => none
  | (k2, v) :: rest => if k2 == k then some v else lookupGoVal k rest

/-- The declared type of the shape field named k (what
reflect FieldByName sees). -/
def lookupFieldType (k : String) : DataShape → Option FieldType
  | [] => none
  | (k2, t) :: rest => if k2 == k then some t else lookupFieldType k rest

/-- encoding/json decoding of one JSON value into a struct field of the
given type: matching kinds succeed, anything else is an
UnmarshalTypeError. -/
def coerceField : FieldType → Json → GoResult GoVal
  | .tstr, .str s => .ok (.vstr s)
  | .tint, .num n => .ok (.vint n)
  | .tstr, _ => .err (.unmarshalTypeError "string")
  | .tint, _ => .err (.unmarshalTypeError "int")

/-- encoding/json decoding of one struct field: an absent key or a null
value leaves the freshly-allocated zero value, a present value must match
the field's type. -/
def unmarshalOneField (t : FieldType) : Option Json → GoResult GoVal
  | none => .ok t.zeroVal
  | some .null => .ok t.zeroVal
  | some j => coerceField t j

/-- encoding/json decoding of a JSON object into a struct of the given
shape: every declared field is filled from the object's field of the same
name (unknown JSON keys are ignored, absent keys stay zero). -/
def unmarshalFields (shape : DataShape) (fields : List (String × Json)) :
    GoResult DataVal :=
  match shape with
  | [] => .ok []
  | (k, t) :: rest =>
    match unmarshalOneField t (lookupField k fields) with
    | .err e => .err e
    | .panicked m => .panicked m
    | .ok v =>
      match unmarshalFields rest fields with
      | .err e => .err e
      | .panicked m => .panicked m
      | .ok d => .ok ((k, v) :: d)

/-- The all-zero data value of a shape. -/
def zeroData (shape : DataShape) : DataVal :=
  shape.map (fun kt => (kt.fst, kt.snd.zeroVal))

/-- json.Unmarshal of message.ServerMemo.Data into a fresh instance of the
component's declared data type (part_001 lines 214-215): a JSON object
fills the struct's fields, a JSON null leaves the fresh zero struct, any
other document kind is an UnmarshalTypeError. -/
def unmarshalData (shape : DataShape) : Json → GoResult DataVal
  | .obj fields => unmarshalFields shape fields
  | .null => .ok (zeroData shape)
  | _ => .err (.unmarshalTypeError "struct")

/-- The data value consists exactly of the declared fields of the shape, in
order and with matching types, and the field names are distinct (as the
fields of a Go struct type always are). -/
def dataMatchesShape (d : DataVal) (shape : DataShape) : Prop :=
  d.map (fun kv => (kv.fst, kv.snd.fieldType)) = shape ∧
    (d.map Prod.fst).Nodup

/-- The generator polynomial of crc32.ChecksumIEEE in reflected bit order
(hash/crc32's IEEE table is built from it). -/
def crc32Poly : Nat := 0xEDB88320

/-- One bit step of the reflected CRC-32 computation: shift right, and fold
the generator in when the dropped bit was set. -/
def crc32Step (crc : Nat) : Nat :=
  if crc % 2 == 1 then (crc / 2) ^^^ crc32Poly else crc / 2

/-- Absorbing one input byte into the running CRC: xor it in, then run the
eight bit steps (hash/crc32's simpleUpdate). -/
def crc32UpdateByte (crc b : Nat) : Nat :=
  crc32Step (crc32Step (crc32Step (crc32Step
    (crc32Step (crc32Step (crc32Step (crc32Step (crc ^^^ b % 256))))))))

/-- The running CRC over a byte list. -/
def crc32Body : List Nat → Nat → Nat
  | [], crc => crc
  | b :: bs, crc => crc32Body bs (crc32UpdateByte crc b)

/-- crc32.ChecksumIEEE: pre- and post-inverted reflected CRC-32 over the
bytes. -/
def crc32IEEE (bs : List Nat) : Nat :=
  crc32Body bs 0xFFFFFFFF ^^^ 0xFFFFFFFF

/-- One lowercase hexadecimal digit. -/
def hexDigitChar (n : Nat) : Char :=
  if n < 10 then Char.ofNat (48 + n) else Char.ofNat (87 + n)

/-- The lowercase hexadecimal digits of n, most significant first, with an
explicit recursion budget far above the number of digits (n itself). -/
def hexDigitsAux : Nat → Nat → List Char
  | 0, _ => []
  | fuel + 1, n =>
    if n < 16 then [hexDigitChar n]
    else hexDigitsAux fuel (n / 16) ++ [hexDigitChar (n % 16)]

/-- The lowercase hexadecimal digits of n, most significant first. -/
def hexDigits (n : Nat) : List Char :=
  hexDigitsAux (n + 1) n

/-- fmt.Sprintf with the verb applied at htmlHash's call site: lowercase
hexadecimal, zero-padded on the left to width 8. -/
def sprintf08x (n : Nat) : String :=
  String.mk (List.replicate (8 - (hexDigits n).length) '0' ++ hexDigits n)

/-- htmlHash (livewire.go lines 100-102): the CRC-32 (IEEE) checksum of the
markup's bytes, formatted as zero-padded lowercase hexadecimal of width
8. -/
def htmlHash (h : List Nat) : String :=
  sprintf08x (crc32IEEE h)

/-- The bytes of an ASCII string (the UTF-8 bytes of the code points below
128 that the embedded string constants consist of). -/
def asciiBytes (s : String) : List Nat :=
  s.data.map Char.toNat

/-- LivewireFingerprint (part_000, lines 23-30): per-instance identity plus
routing context. -/
structure LivewireFingerprint where
  ID : String
  Name : String
  Locale : String
  Path : String
  Method : String
  InvalidationHash : String
deriving DecidableEq, Repr

/-- LivewireServerMemo (part_000, lines 41-47): the state snapshot the
client echoes back. Data (a json.RawMessage) is modelled as the parsed
document. -/
structure LivewireServerMemo where
  HTMLHash : String
  Data : Json
  DataMeta : List String
  Children : List String
  Errors : List String
deriving Repr

/-- LivewireUpdate (part_000, lines 49-52): a tagged update. typeTag stands
for the Go field Type (json "type"); its payload is modelled as the parsed
document. -/
structure LivewireUpdate where
  typeTag : String
  Payload : Json
deriving Repr

/-- LivewireMessage (part_000, lines 12-16): the client-to-server update
message. -/
structure LivewireMessage where
  Fingerprint : LivewireFingerprint
  ServerMemo : LivewireServerMemo
  Updates : List LivewireUpdate
deriving Repr

/-- LivewireEffectsResponse (part_000, lines 36-39). Dirty models a Go
string slice: none is the nil slice (a JSON null on the wire), some an
initialized slice. HTML holds the markup bytes, the zero value being the
empty fragment. -/
structure LivewireEffectsResponse where
  Dirty : Option (List String)
  HTML : List Nat
deriving Repr

/-- LivewireMessageResponse (part_000, lines 18-21). -/
structure LivewireMessageResponse where
  Effects : LivewireEffectsResponse
  ServerMemo : LivewireServerMemo
deriving Repr

/-- What this model observes of a parsed markup fragment: the root
element's attribute list (which updateHTML rewrites), and the rest of the
element's serialized identity, carried unchanged. -/
structure HtmlElem where
  attrs : List (String × String)
  content : List Nat
deriving DecidableEq, Repr

/-- The external goquery capability used by updateHTML:
NewDocumentFromReader followed by Find of the body's first child, and
OuterHtml serialization. Both may fail; their inner behaviour is a
parameter of the model. -/
structure HtmlLib where
  findRoot : List Nat → GoResult HtmlElem
  outerHtml : HtmlElem → GoResult (List Nat)

/-- goquery SetAttr on the root element: overwrite the attribute when the
key exists, append it otherwise. -/
def setAttr (e : HtmlElem) (k v : String) : HtmlElem :=
  if e.attrs.any (fun kv => kv.fst == k) then
    { e with attrs := e.attrs.map (fun kv => if kv.fst == k then (kv.fst, v) else kv) }
  else
    { e with attrs := e.attrs ++ [(k, v)] }

/-- The livewire.go lines 87-89 loop: set each requested attribute on the
root (Go iterates the attrs map in arbitrary order; the claims proved
below do not depend on it). -/
def setAttrs (e : HtmlElem) : List (String × String) → HtmlElem
  | [] => e
  | (k, v) :: rest => setAttrs (setAttr e k v) rest

/-- updateHTML (livewire.go lines 77-98): parse the fragment, locate its
root element, set the attributes, serialize the subtree back, and append
the footer between two newlines. -/
def updateHTML (lib : HtmlLib) (html : List Nat) (attrs : List (String × String))
    (footer : String) : GoResult (List Nat) :=
  match lib.findRoot html with
  | .err e => .err (.failedParseHtml e)
  | .panicked m => .panicked m
  | .ok root =>
    match lib.outerHtml (setAttrs root attrs) with
    | .err e => .err (.failedRenderHtml e)
    | .panicked m => .panicked m
    | .ok out => .ok (out ++ asciiBytes ("\n" ++ footer ++ "\n"))

/-- First-match association lookup (a read of a Go map built by inserting
the pairs of a duplicate-free list). -/
def assocLookup {α : Type} (k : String) : List (String × α) → Option α
  | [] => none
  | (k2, v) :: rest => if k2 == k then some v else assocLookup k rest

/-- A registered component definition. The Go side is any value whose
methods livewireUpdate and livewireInitial reach through reflection: an
InitialData factory returning a pointer to its data struct, and update
methods taking that pointer and returning an error. A method is modelled
as the data value it leaves behind together with its returned error. -/
structure LivewireComponent where
  dataShape : DataShape
  initialData : DataVal
  methods : List (String × (DataVal → DataVal × Option CErr))

/-- HTMLRenderer (part_001, lines 39-44), restricted to what the two
livewire entry points read: the component registry, and the template
engine behind renderPartialFromDir (part_001 lines 341-370) as an abstract
capability taking the directory, the component name, the data value, and
the request's method and path (the request is consulted only by the
per-request helper function table). -/
structure HTMLRenderer where
  livewireComponentByName : List (String × LivewireComponent)
  renderPartialFromDir : String → String → DataVal → String → String → GoResult (List Nat)

/-- The registry read r.livewireComponentByName[name]. -/
def lookupComponent (r : HTMLRenderer) (name : String) : Option LivewireComponent :=
  assocLookup name r.livewireComponentByName

/-- The alphanumeric alphabet of the random id generator. -/
def randomAlphabet : List Char :=
  "abcdefghijklmnopqrstuvwxyzABCDEFGHIJKLMNOPQRSTUVWXYZ0123456789".data

/-- Modelled from the spec: crandom.GenerateRandomString, whose source file
is not among the embedded files. The spec (section 4.2) has the initial
render "generate a fresh random opaque id (sufficiently long/random)", and
the call site requests 20 characters; the generator is modelled as
producing exactly n characters drawn from an alphanumeric alphabet, with
the randomness source abstracted as a stream of naturals. -/
def generateRandomString (randomness : Nat → Nat) (n : Nat) : String :=
  String.mk ((List.range n).map
    (fun i => randomAlphabet.getD (randomness i % randomAlphabet.length) 'a'))

/-- Backslash-escaping of one character for a JSON string literal (the
escapes exercised by the serialized envelopes; encoding/json additionally
escapes control and HTML-significant characters). -/
def escapeJsonChar (c : Char) : String :=
  if c = '"' then "\\\"" else if c = '\\' then "\\\\" else String.singleton c

/-- Backslash-escaping of a string for a JSON string literal. -/
def escapeJsonString (s : String) : String :=
  String.join (s.data.map escapeJsonChar)

mutual
/-- json.Marshal of a document: the serialized JSON text. -/
def Json.render : Json → String
  | .null => "null"
  | .bool true => "true"
  | .bool false => "false"
  | .num n => toString n
  | .str s => "\"" ++ escapeJsonString s ++ "\""
  | .arr xs => "[" ++ Json.renderList xs ++ "]"
  | .obj fs => "\x7b" ++ Json.renderFields fs ++ "\x7d"

/-- The comma-separated serialization of an array's elements. -/
def Json.renderList : List Json → String
  | [] => ""
  | [x] => Json.render x
  | x :: rest => Json.render x ++ "," ++ Json.renderList rest

/-- The comma-separated serialization of an object's fields. -/
def Json.renderFields : List (String × Json) → String
  | [] => ""
  | [(k, v)] => "\"" ++ escapeJsonString k ++ "\":" ++ Json.render v
  | (k, v) :: rest =>
      "\"" ++ escapeJsonString k ++ "\":" ++ Json.render v ++ "," ++ Json.renderFields rest
end

/-- The wire:initial-data envelope marshalled at part_001 lines 169-186:
{fingerprint, serverMemo, effects: empty}, with the top-level keys in
json.Marshal's sorted map-key order and the structs in field order. The
nil slices of the fresh server memo and the nil Listeners of the empty
effects marshal as JSON nulls. -/
def initialDataEnvelope (id name locale path method invalidationHash : String)
    (memoHash : String) (dataJ : Json) : Json :=
  Json.obj [
    ("effects", Json.obj [("listeners", Json.null)]),
    ("fingerprint", Json.obj [
      ("id", Json.str id), ("name", Json.str name), ("locale", Json.str locale),
      ("path", Json.str path), ("method", Json.str method),
      ("v", Json.str invalidationHash)]),
    ("serverMemo", Json.obj [
      ("htmlHash", Json.str memoHash), ("data", dataJ), ("dataMeta", Json.null),
      ("children", Json.null), ("errors", Json.null)])]

/-- livewireInitial (part_001, lines 139-201), for one request: generate
the 20-character id, look the component up, obtain its initial data (the
InitialData reflection call, total here since the factory is a field, so
the "InitialData return value is invalid" guard of lines 151-153 cannot
fire), render its markup, marshal the data and the envelope (both total
for these value shapes), and stamp the root element with wire:id and
wire:initial-data plus the end-marker comment. -/
def livewireInitial (lib : HtmlLib) (r : HTMLRenderer) (randomness : Nat → Nat)
    (reqMethod reqPath : String) (name : String) : GoResult (List Nat) :=
  let id := generateRandomString randomness 20
  match lookupComponent r name with
  | none => .err (.componentDoesNotExist name)
  | some c =>
    match r.renderPartialFromDir "livewire" name c.initialData reqMethod reqPath with
    | .err e => .err (.failedExecuteTemplate e)
    | .panicked m => .panicked m
    | .ok out =>
      let dataJ := marshalData c.initialData
      let envelope := initialDataEnvelope id name "en" reqPath reqMethod "aaa"
        (htmlHash out) dataJ
      match updateHTML lib out
          [("wire:id", id), ("wire:initial-data", Json.render envelope)]
          ("<!-- Livewire Component wire-end:" ++ id ++ " -->") with
      | .err e => .err (.failedRenderHtmlWrap e)
      | .panicked m => .panicked m
      | .ok html => .ok html

/-- encoding/json decoding of an object's string field into a payload
struct field: absent or null keys leave the zero string, a non-string
value is an UnmarshalTypeError. -/
def unmarshalStringField (k : String) (fields : List (String × Json)) : GoResult String :=
  match lookupField k fields with
  | none => .ok ""
  | some Json.null => .ok ""
  | some (Json.str s) => .ok s
  | some _ => .err (.unmarshalTypeError "string")

/-- encoding/json decoding of a JSON array of strings. -/
def stringsOf : List Json → GoResult (List String)
  | [] => .ok []
  | Json.str s :: rest =>
    match stringsOf rest with
    | .ok ss => .ok (s :: ss)
    | .err e => .err e
    | .panicked m => .panicked m
  | _ :: _ => .err (.unmarshalTypeError "string")

/-- encoding/json decoding of an object's []string field: absent or null
keys leave the nil slice. -/
def unmarshalStringListField (k : String) (fields : List (String × Json)) :
    GoResult (List String) :=
  match lookupField k fields with
  | none => .ok []
  | some Json.null => .ok []
  | some (Json.arr xs) => stringsOf xs
  | some _ => .err (.unmarshalTypeError "[]string")

/-- json.Unmarshal of a callMethod payload into
LivewireUpdatePayloadCallMethod (part_001 lines 228-229): {id, method,
params}; a null document leaves the zero struct; a non-object document is
an UnmarshalTypeError. -/
def unmarshalCallMethodPayload : Json → GoResult LivewireUpdatePayloadCallMethod
  | Json.obj fields =>
    match unmarshalStringField "id" fields with
    | .err e => .err e
    | .panicked m => .panicked m
    | .ok i =>
      match unmarshalStringField "method" fields with
      | .err e => .err e
      | .panicked m => .panicked m
      | .ok mth =>
        match unmarshalStringListField "params" fields with
        | .err e => .err e
        | .panicked m => .panicked m
        | .ok ps => .ok { id := i, method := mth, params := ps }
  | Json.null => .ok { id := "", method := "", params := [] }
  | _ => .err (.unmarshalTypeError "LivewireUpdatePayloadCallMethod")

/-- json.Unmarshal of a syncInput payload into
LivewireUpdatePayloadSyncInput (part_001 lines 251-252): {id, name,
value}. -/
def unmarshalSyncInputPayload : Json → GoResult LivewireUpdatePayloadSyncInput
  | Json.obj fields =>
    match unmarshalStringField "id" fields with
    | .err e => .err e
    | .panicked m => .panicked m
    | .ok i =>
      match unmarshalStringField "name" fields with
      | .err e => .err e
      | .panicked m => .panicked m
      | .ok nm =>
        match unmarshalStringField "value" fields with
        | .err e => .err e
        | .panicked m => .panicked m
        | .ok vl => .ok { id := i, name := nm, value := vl }
  | Json.null => .ok { id := "", name := "", value := "" }
  | _ => .err (.unmarshalTypeError "LivewireUpdatePayloadSyncInput")

/-- The reflection method call of part_001 lines 237-239:
componentVal.MethodByName(payload.Method).Call([dataVal]). MethodByName on
a missing method yields the zero Value, and Call on the zero Value
panics; a found method runs and leaves its data value and returned
error. -/
def callComponentMethod (c : LivewireComponent) (methodName : String) (d : DataVal) :
    GoResult (DataVal × Option CErr) :=
  match assocLookup methodName c.methods with
  | none => .panicked "reflect: call of reflect.Value.Call on zero Value"
  | some f => .ok (f d)

/-- The reflection field write of part_001 line 260:
dataVal.Elem().FieldByName(payload.Name).Set(reflect.ValueOf(payload.Value)).
FieldByName on a missing field yields the zero Value and Set on it
panics; Set of a string into a non-string field panics with an
assignability error; a string field is overwritten with the value. -/
def setField (shape : DataShape) (d : DataVal) (name value : String) : GoResult DataVal :=
  match lookupFieldType name shape with
  | none => .panicked "reflect: call of reflect.Value.Set on zero Value"
  | some FieldType.tint =>
      .panicked "reflect.Set: value of type string is not assignable to type int"
  | some FieldType.tstr =>
      .ok (d.map (fun kv => if kv.fst == name then (kv.fst, GoVal.vstr value) else kv))

/-- One iteration of the update loop (part_001 lines 223-267): the switch
on update.Type with its "callMethod", "syncInput" and default cases,
yielding the data value the loop continues with, or the failure that
aborts livewireUpdate. -/
def applyOneUpdate (c : LivewireComponent) (componentName : String)
    (u : LivewireUpdate) (d : DataVal) : GoResult DataVal :=
  if u.typeTag == "callMethod" then
    match unmarshalCallMethodPayload u.Payload with
    | .err e => .err (.failedUnmarshalPayload u.typeTag e)
    | .panicked m => .panicked m
    | .ok payload =>
      match callComponentMethod c payload.method d with
      | .err e => .err e
      | .panicked m => .panicked m
      | .ok (_, some e) => .err (.failedCallMethod componentName payload e)
      | .ok (d2, none) => .ok d2
  else if u.typeTag == "syncInput" then
    match unmarshalSyncInputPayload u.Payload with
    | .err e => .err (.failedUnmarshalPayload u.typeTag e)
    | .panicked m => .panicked m
    | .ok payload => setField c.dataShape d payload.name payload.value
  else
    .err (.unknownUpdateType u.typeTag)

/-- The update loop of part_001 lines 223-267, left to right, each update
seeing the data the previous one left; the first failure aborts the
whole run. -/
def applyUpdates (c : LivewireComponent) (componentName : String) :
    List LivewireUpdate → DataVal → GoResult DataVal
  | [], d => .ok d
  | u :: rest, d =>
    match applyOneUpdate c componentName u d with
    | .err e => .err e
    | .panicked m => .panicked m
    | .ok d2 => applyUpdates c componentName rest d2

/-- json.Unmarshal of a document into map[string]interface{} (part_001
lines 299 and 304): an object yields its field map, null the nil map, and
any other document kind is an UnmarshalTypeError. -/
def unmarshalGenericMap : Json → GoResult (List (String × Json))
  | Json.obj fields => .ok fields
  | Json.null => .ok []
  | _ => .err (.unmarshalTypeError "map")

/-- The dirty-field loop of part_001 lines 309-320, appending to the
initialized empty Dirty slice: for every field of the pre-update map, the
name is collected when the field is absent from the post-update map or
its value is not deep-equal. (Go iterates the pre map in arbitrary order;
which names are collected does not depend on it.) -/
def computeDirty : List (String × Json) → List (String × Json) → List String
  | [], _ => []
  | (k, v) :: rest, post =>
    match lookupField k post with
    | none => k :: computeDirty rest post
    | some w =>
      if Json.deepEqual v w then computeDirty rest post
      else k :: computeDirty rest post

/-- livewireUpdate (part_001, lines 203-339): look the component up,
rehydrate its data from the echoed server memo, apply the updates in
order, re-render with the synthetic request built from the fingerprint's
method and path (http.NewRequest at lines 269-274, total here), marshal
the new data (total for these value shapes), and hash the new markup.
When the hash still equals the echoed serverMemo.htmlHash, the response
carries the initialized empty dirty list and the zero-value empty html;
otherwise both snapshots are decoded into generic maps, the dirty names
are collected, and the markup is re-stamped with just the instance id. -/
def livewireUpdate (lib : HtmlLib) (r : HTMLRenderer) (message : LivewireMessage) :
    GoResult LivewireMessageResponse :=
  match lookupComponent r message.Fingerprint.Name with
  | none => .err (.componentDoesNotExist message.Fingerprint.Name)
  | some c =>
    match unmarshalData c.dataShape message.ServerMemo.Data with
    | .err e => .err (.failedUnmarshalData e)
    | .panicked m => .panicked m
    | .ok dataVal =>
      match applyUpdates c message.Fingerprint.Name message.Updates dataVal with
      | .err e => .err e
      | .panicked m => .panicked m
      | .ok dataVal2 =>
        match r.renderPartialFromDir "livewire" message.Fingerprint.Name dataVal2
            message.Fingerprint.Method message.Fingerprint.Path with
        | .err e => .err (.failedExecuteTemplate e)
        | .panicked m => .panicked m
        | .ok out =>
          let dataJ := marshalData dataVal2
          let updatedHTMLHash := htmlHash out
          if message.ServerMemo.HTMLHash != updatedHTMLHash then
            match unmarshalGenericMap message.ServerMemo.Data with
            | .err e => .err (.failedUnmarshalPre e)
            | .panicked m => .panicked m
            | .ok dataPre =>
              match unmarshalGenericMap dataJ with
              | .err e => .err (.failedUnmarshalPost e)
              | .panicked m => .panicked m
              | .ok dataPost =>
                match updateHTML lib out [("wire:id", message.Fingerprint.ID)] "" with
                | .err e => .err (.failedRenderHtmlWrap e)
                | .panicked m => .panicked m
                | .ok html2 =>
                  .ok { Effects := { Dirty := some (computeDirty dataPre dataPost),
                                     HTML := html2 },
                        ServerMemo := { HTMLHash := updatedHTMLHash, Data := dataJ,
                                        DataMeta := [], Children := [], Errors := [] } }
          else
            .ok { Effects := { Dirty := some [], HTML := [] },
                  ServerMemo := { HTMLHash := updatedHTMLHash, Data := dataJ,
                                  DataMeta := [], Children := [], Errors := [] } }

theorem crc32Step_lt {c : Nat} (h : c < 2 ^ 32) : crc32Step c < 2 ^ 32 := by
  unfold crc32Step
  split
  · exact Nat.xor_lt_two_pow (by omega) (by decide)
  · omega

theorem crc32UpdateByte_lt {c : Nat} (b : Nat) (h : c < 2 ^ 32) :
    crc32UpdateByte c b < 2 ^ 32 := by
  unfold crc32UpdateByte
  have h0 : c ^^^ b % 256 < 2 ^ 32 := Nat.xor_lt_two_pow h (by omega)
  exact crc32Step_lt (crc32Step_lt (crc32Step_lt (crc32Step_lt (crc32Step_lt
    (crc32Step_lt (crc32Step_lt (crc32Step_lt h0)))))))

theorem crc32Body_lt (bs : List Nat) : ∀ c : Nat, c < 2 ^ 32 → crc32Body bs c < 2 ^ 32 := by
  induction bs with
  | nil => intro c h; simpa [crc32Body] using h
  | cons b rest ih =>
    intro c h
    simpa [crc32Body] using ih _ (crc32UpdateByte_lt b h)

theorem crc32IEEE_lt (bs : List Nat) : crc32IEEE bs < 2 ^ 32 :=
  Nat.xor_lt_two_pow (crc32Body_lt bs _ (by decide)) (by decide)

theorem hexDigitsAux_length_le :
    ∀ fuel n k : Nat, n < 16 ^ k → 1 ≤ k → (hexDigitsAux fuel n).length ≤ k := by
  intro fuel
  induction fuel with
  | zero => intro n k _ _; simp [hexDigitsAux]
  | succ fuel ih =>
    intro n k hn hk
    by_cases hsmall : n < 16
    · simpa [hexDigitsAux, hsmall] using hk
    · have hk2 : 2 ≤ k := by
        by_contra hcon
        have hk1 : k = 1 := by omega
        subst hk1
        simp [pow_one] at hn
        omega
      have hdiv : n / 16 < 16 ^ (k - 1) := by
        have : (16 : Nat) ^ k = 16 ^ (k - 1) * 16 := by
          rw [← Nat.pow_succ]
          congr 1
          omega
        rw [Nat.div_lt_iff_lt_mul (by omega)]
        omega
      have := ih (n / 16) (k - 1) hdiv (by omega)
      simp [hexDigitsAux, hsmall]
      omega

theorem htmlHash_length (bs : List Nat) : (htmlHash bs).length = 8 := by
  have hlt : crc32IEEE bs < 16 ^ 8 := by
    have := crc32IEEE_lt bs
    omega
  have hlen : (hexDigits (crc32IEEE bs)).length ≤ 8 :=
    hexDigitsAux_length_le _ _ 8 hlt (by omega)
  simp only [htmlHash, sprintf08x, hexDigits] at *
  simp only [String.length, String.mk, List.length_append, List.length_replicate]
  omega

/-- The sixteen lowercase hexadecimal digit characters. -/
def hexAlphabet : List Char := "0123456789abcdef".data

theorem hexDigitChar_mem {n : Nat} (h : n < 16) : hexDigitChar n ∈ hexAlphabet := by
  interval_cases n <;> decide

theorem hexDigitsAux_chars :
    ∀ fuel n : Nat, ∀ c ∈ hexDigitsAux fuel n, c ∈ hexAlphabet := by
  intro fuel
  induction fuel with
  | zero => intro n c hc; simp [hexDigitsAux] at hc
  | succ fuel ih =>
    intro n c hc
    by_cases hsmall : n < 16
    · simp [hexDigitsAux, hsmall] at hc
      subst hc
      exact hexDigitChar_mem hsmall
    · simp [hexDigitsAux, hsmall] at hc
      rcases hc with hc | hc
      · exact ih _ _ hc
      · subst hc
        exact hexDigitChar_mem (Nat.mod_lt _ (by omega))

theorem htmlHash_chars (bs : List Nat) : ∀ c ∈ (htmlHash bs).data, c ∈ hexAlphabet := by
  intro c hc
  simp only [htmlHash, sprintf08x, hexDigits, String.mk, String.data] at hc
  rcases List.mem_append.mp hc with hc | hc
  · have := List.eq_of_mem_replicate hc
    subst this
    decide
  · exact hexDigitsAux_chars _ _ _ hc

theorem unmarshalOneField_marshal (v : GoVal) :
    unmarshalOneField v.fieldType (some v.marshal) = .ok v := by
  cases v <;> rfl

theorem unmarshalFields_skip (k : String) (jv : Json) :
    ∀ (shape : DataShape) (fields : List (String × Json)),
      (∀ kt ∈ shape, kt.fst ≠ k) →
      unmarshalFields shape ((k, jv) :: fields) = unmarshalFields shape fields := by
  intro shape
  induction shape with
  | nil => intro fields _; rfl
  | cons kt rest ih =>
    intro fields havoid
    obtain ⟨k2, t⟩ := kt
    have hk2 : k2 ≠ k := havoid (k2, t) (List.mem_cons_self _ _)
    have hbeq : (k == k2) = false := by
      simp only [beq_eq_false_iff_ne, ne_eq]
      exact fun h => hk2 h.symm
    simp only [unmarshalFields, lookupField, hbeq, Bool.false_eq_true, if_false,
      ih fields (fun kt hm => havoid kt (List.mem_cons_of_mem _ hm))]

theorem unmarshalFields_roundtrip :
    ∀ d : DataVal, (d.map Prod.fst).Nodup →
      unmarshalFields (d.map (fun kv => (kv.fst, kv.snd.fieldType)))
        (d.map (fun kv => (kv.fst, kv.snd.marshal))) = .ok d := by
  intro d
  induction d with
  | nil => intro _; rfl
  | cons kv rest ih =>
    intro hnodup
    obtain ⟨k, v⟩ := kv
    simp only [List.map_cons, List.nodup_cons] at hnodup ⊢
    obtain ⟨hknot, hrest⟩ := hnodup
    have hskip : unmarshalFields (rest.map (fun kv => (kv.fst, kv.snd.fieldType)))
        ((k, v.marshal) :: rest.map (fun kv => (kv.fst, kv.snd.marshal))) =
        unmarshalFields (rest.map (fun kv => (kv.fst, kv.snd.fieldType)))
        (rest.map (fun kv => (kv.fst, kv.snd.marshal))) := by
      apply unmarshalFields_skip
      intro kt hm hkk
      apply hknot
      simp only [List.mem_map] at hm ⊢
      obtain ⟨kv2, hkv2, heq⟩ := hm
      refine ⟨kv2, hkv2, ?_⟩
      rw [← heq] at hkk
      exact hkk
    simp only [unmarshalFields, lookupField, beq_self_eq_true, if_true,
      unmarshalOneField_marshal, hskip, ih hrest]

/-- dataMatchesShape makes unmarshalData a left inverse of marshalData. -/
theorem unmarshalData_marshalData {d : DataVal} {shape : DataShape}
    (h : dataMatchesShape d shape) :
    unmarshalData shape (marshalData d) = .ok d := by
  obtain ⟨hshape, hnodup⟩ := h
  subst hshape
  simpa [unmarshalData, marshalData] using unmarshalFields_roundtrip d hnodup

/-- What the spec calls a dirty field of the shallow diff: present
pre-update, and absent post-update or changed under structural
equality. -/
def dirtyFieldSpec (pre post : List (String × Json)) (k : String) : Prop :=
  ∃ v, lookupField k pre = some v ∧
    (lookupField k post = none ∨
      ∃ w, lookupField k post = some w ∧ Json.deepEqual v w = false)

theorem computeDirty_subset :
    ∀ (pre post : List (String × Json)) (k : String),
      k ∈ computeDirty pre post → k ∈ pre.map Prod.fst := by
  intro pre
  induction pre with
  | nil => intro post k h; simp [computeDirty] at h
  | cons kv rest ih =>
    intro post k h
    obtain ⟨k0, v0⟩ := kv
    simp only [computeDirty] at h
    simp only [List.map_cons]
    rcases hpost : lookupField k0 post with _ | w
    · rw [hpost] at h
      rcases List.mem_cons.mp h with h | h
      · exact h ▸ List.mem_cons_self _ _
      · exact List.mem_cons_of_mem _ (ih post k h)
    · simp only [hpost] at h
      by_cases hde : Json.deepEqual v0 w = true
      · simp only [hde, if_true] at h
        exact List.mem_cons_of_mem _ (ih post k h)
      · simp only [hde, if_false, Bool.false_eq_true] at h
        rcases List.mem_cons.mp h with h | h
        · exact h ▸ List.mem_cons_self _ _
        · exact List.mem_cons_of_mem _ (ih post k h)

theorem mem_computeDirty :
    ∀ (pre post : List (String × Json)), (pre.map Prod.fst).Nodup →
      ∀ k, k ∈ computeDirty pre post ↔ dirtyFieldSpec pre post k := by
  intro pre
  induction pre with
  | nil =>
    intro post _ k
    simp [computeDirty, dirtyFieldSpec, lookupField]
  | cons kv rest ih =>
    intro post hnodup k
    obtain ⟨k0, v0⟩ := kv
    simp only [List.map_cons, List.nodup_cons] at hnodup
    obtain ⟨hk0not, hrest⟩ := hnodup
    by_cases hk : k0 = k
    · subst hk
      have hnotrest : k0 ∉ computeDirty rest post := fun hmem =>
        hk0not (computeDirty_subset rest post k0 hmem)
      have hlook : lookupField k0 ((k0, v0) :: rest) = some v0 := by
        simp [lookupField]
      constructor
      · intro h
        simp only [computeDirty] at h
        rcases hpost : lookupField k0 post with _ | w
        · exact ⟨v0, hlook, Or.inl hpost⟩
        · simp only [hpost] at h
          by_cases hde : Json.deepEqual v0 w = true
          · simp only [hde, if_true] at h
            exact absurd h hnotrest
          · exact ⟨v0, hlook, Or.inr ⟨w, hpost, Bool.eq_false_iff.mpr hde⟩⟩
      · intro h
        obtain ⟨v, hv, hcond⟩ := h
        rw [hlook] at hv
        injection hv with hv
        subst hv
        simp only [computeDirty]
        rcases hcond with hnone | ⟨w, hsome, hde⟩
        · simp [hnone]
        · simp [hsome, hde]
    · have hk2 : ¬k = k0 := fun h => hk h.symm
      have hbeq : (k0 == k) = false := by
        simp only [beq_eq_false_iff_ne, ne_eq]
        exact hk
      have hlift : dirtyFieldSpec ((k0, v0) :: rest) post k ↔ dirtyFieldSpec rest post k := by
        unfold dirtyFieldSpec
        simp [lookupField, hbeq]
      rw [hlift, ← ih post hrest k]
      rcases hpost : lookupField k0 post with _ | w
      · simp [computeDirty, hpost, List.mem_cons, hk2]
      · by_cases hde : Json.deepEqual v0 w = true
        · simp [computeDirty, hpost, hde]
        · simp [computeDirty, hpost, hde, List.mem_cons, hk2]

theorem applyUpdates_append (c : LivewireComponent) (n : String) :
    ∀ (us1 us2 : List LivewireUpdate) (d : DataVal),
      applyUpdates c n (us1 ++ us2) d =
        match applyUpdates c n us1 d with
        | .ok d1 => applyUpdates c n us2 d1
        | .err e => .err e
        | .panicked m => .panicked m := by
  intro us1
  induction us1 with
  | nil => intro us2 d; rfl
  | cons u rest ih =>
    intro us2 d
    simp only [List.cons_append, applyUpdates]
    cases applyOneUpdate c n u d with
    | ok d2 => exact ih us2 d2
    | err e => rfl
    | panicked m => rfl

theorem applyOneUpdate_unknown (c : LivewireComponent) (n : String)
    (u : LivewireUpdate) (d : DataVal)
    (h1 : u.typeTag ≠ "callMethod") (h2 : u.typeTag ≠ "syncInput") :
    applyOneUpdate c n u d = .err (.unknownUpdateType u.typeTag) := by
  have b1 : (u.typeTag == "callMethod") = false := by
    simp only [beq_eq_false_iff_ne, ne_eq]; exact h1
  have b2 : (u.typeTag == "syncInput") = false := by
    simp only [beq_eq_false_iff_ne, ne_eq]; exact h2
  simp [applyOneUpdate, b1, b2]

theorem applyUpdates_not_ok_of_mem (c : LivewireComponent) (n : String)
    (u : LivewireUpdate)
    (hfail : ∀ (d : DataVal) (d2 : DataVal), applyOneUpdate c n u d ≠ .ok d2) :
    ∀ (us : List LivewireUpdate) (d : DataVal) (dfin : DataVal),
      u ∈ us → applyUpdates c n us d ≠ .ok dfin := by
  intro us
  induction us with
  | nil => intro d dfin hm; simp at hm
  | cons u0 rest ih =>
    intro d dfin hm
    simp only [applyUpdates]
    rcases List.mem_cons.mp hm with hu | hu
    · subst hu
      cases hcase : applyOneUpdate c n u d with
      | ok d2 => exact absurd hcase (hfail d d2)
      | err e => exact fun hcon => GoResult.noConfusion hcon
      | panicked m => exact fun hcon => GoResult.noConfusion hcon
    · cases hcase : applyOneUpdate c n u0 d with
      | ok d2 => exact ih d2 dfin hu
      | err e => exact fun hcon => GoResult.noConfusion hcon
      | panicked m => exact fun hcon => GoResult.noConfusion hcon

theorem lookupGoVal_map_set (name value : String) :
    ∀ d : DataVal,
      lookupGoVal name (d.map (fun kv =>
        if kv.fst == name then (kv.fst, GoVal.vstr value) else kv)) =
      (lookupGoVal name d).map (fun _ => GoVal.vstr value) := by
  intro d
  induction d with
  | nil => rfl
  | cons kv rest ih =>
    obtain ⟨k, v⟩ := kv
    simp only [List.map_cons]
    by_cases heq : (k == name) = true
    · rw [if_pos heq]
      simp only [lookupGoVal]
      rw [if_pos heq, if_pos heq]
      rfl
    · rw [if_neg heq]
      simp only [lookupGoVal]
      rw [if_neg heq, if_neg heq]
      exact ih

theorem lookupGoVal_map_set_ne (name value k : String) (hk : k ≠ name) :
    ∀ d : DataVal,
      lookupGoVal k (d.map (fun kv =>
        if kv.fst == name then (kv.fst, GoVal.vstr value) else kv)) =
      lookupGoVal k d := by
  intro d
  induction d with
  | nil => rfl
  | cons kv rest ih =>
    obtain ⟨k0, v0⟩ := kv
    simp only [List.map_cons]
    by_cases heq : (k0 == name) = true
    · rw [if_pos heq]
      have hbk : ¬(k0 == k) = true := by
        have hkn : k0 = name := by simpa using heq
        subst hkn
        simp only [beq_iff_eq]
        exact fun hcon => hk hcon.symm
      simp only [lookupGoVal]
      rw [if_neg hbk, if_neg hbk]
      exact ih
    · rw [if_neg heq]
      simp only [lookupGoVal]
      by_cases hbk : (k0 == k) = true
      · rw [if_pos hbk, if_pos hbk]
      · rw [if_neg hbk, if_neg hbk]
        exact ih

theorem assocLookup_append_absent {α : Type} (k k2 : String) (v2 : α)
    (h : (k2 == k) = false) :
    ∀ l : List (String × α), assocLookup k (l ++ [(k2, v2)]) = assocLookup k l := by
  intro l
  induction l with
  | nil => simp [assocLookup, h]
  | cons kv rest ih =>
    obtain ⟨k0, v0⟩ := kv
    simp only [List.cons_append, assocLookup]
    by_cases h0 : (k0 == k) = true
    · rw [if_pos h0, if_pos h0]
    · rw [if_neg h0, if_neg h0]
      exact ih

theorem assocLookup_map_set_self (k v : String) :
    ∀ l : List (String × String), l.any (fun kv => kv.fst == k) = true →
      assocLookup k (l.map (fun kv =>
        if kv.fst == k then (kv.fst, v) else kv)) = some v := by
  intro l
  induction l with
  | nil => intro hany; simp at hany
  | cons kv rest ih =>
    intro hany
    obtain ⟨k0, v0⟩ := kv
    simp only [List.any_cons, Bool.or_eq_true] at hany
    simp only [List.map_cons]
    by_cases h0 : (k0 == k) = true
    · rw [if_pos h0]
      simp only [assocLookup]
      rw [if_pos h0]
    · rw [if_neg h0]
      simp only [assocLookup]
      rw [if_neg h0]
      rcases hany with hany | hany
      · exact absurd hany h0
      · exact ih hany

theorem assocLookup_append_self (k v : String) :
    ∀ l : List (String × String), l.any (fun kv => kv.fst == k) = false →
      assocLookup k (l ++ [(k, v)]) = some v := by
  intro l
  induction l with
  | nil => simp [assocLookup]
  | cons kv rest ih =>
    intro hany
    obtain ⟨k0, v0⟩ := kv
    simp only [List.any_cons, Bool.or_eq_false_iff] at hany
    obtain ⟨h0, hrest⟩ := hany
    simp only [List.cons_append, assocLookup]
    rw [if_neg (by simp [h0])]
    exact ih hrest

theorem assocLookup_map_set_other (k k2 v2 : String) (hk : k ≠ k2) :
    ∀ l : List (String × String),
      assocLookup k (l.map (fun kv =>
        if kv.fst == k2 then (kv.fst, v2) else kv)) = assocLookup k l := by
  intro l
  induction l with
  | nil => rfl
  | cons kv rest ih =>
    obtain ⟨k0, v0⟩ := kv
    simp only [List.map_cons]
    by_cases h0 : (k0 == k2) = true
    · have h0k : ¬(k0 == k) = true := by
        have hk0 : k0 = k2 := by simpa using h0
        subst hk0
        simp only [beq_iff_eq]
        exact fun hcon => hk hcon.symm
      rw [if_pos h0]
      simp only [assocLookup]
      rw [if_neg h0k, if_neg h0k]
      exact ih
    · rw [if_neg h0]
      simp only [assocLookup]
      by_cases h0k : (k0 == k) = true
      · rw [if_pos h0k, if_pos h0k]
      · rw [if_neg h0k, if_neg h0k]
        exact ih

theorem assocLookup_setAttr_self (k v : String) (e : HtmlElem) :
    assocLookup k (setAttr e k v).attrs = some v := by
  unfold setAttr
  by_cases hany : e.attrs.any (fun kv => kv.fst == k) = true
  · rw [if_pos hany]
    exact assocLookup_map_set_self k v e.attrs hany
  · rw [if_neg hany]
    exact assocLookup_append_self k v e.attrs (Bool.not_eq_true _ ▸ eq_false_of_ne_true hany)

theorem assocLookup_setAttr_other (k k2 v2 : String) (hk : k ≠ k2) (e : HtmlElem) :
    assocLookup k (setAttr e k2 v2).attrs = assocLookup k e.attrs := by
  have hbeq : (k2 == k) = false := by
    simp only [beq_eq_false_iff_ne, ne_eq]
    exact fun hcon => hk hcon.symm
  unfold setAttr
  by_cases hany : e.attrs.any (fun kv => kv.fst == k2) = true
  · rw [if_pos hany]
    exact assocLookup_map_set_other k k2 v2 hk e.attrs
  · rw [if_neg hany]
    exact assocLookup_append_absent k k2 v2 hbeq e.attrs

theorem livewireUpdate_ok_inv {lib : HtmlLib} {r : HTMLRenderer}
    {message : LivewireMessage} {resp : LivewireMessageResponse}
    (h : livewireUpdate lib r message = .ok resp) :
    (∃ c d0 d1, lookupComponent r message.Fingerprint.Name = some c ∧
      unmarshalData c.dataShape message.ServerMemo.Data = .ok d0 ∧
      applyUpdates c message.Fingerprint.Name message.Updates d0 = .ok d1) ∧
    ∃ l, resp.Effects.Dirty = some l := by
  unfold livewireUpdate at h
  cases hc : lookupComponent r message.Fingerprint.Name with
  | none =>
    simp only [hc] at h
    exact GoResult.noConfusion h
  | some c =>
    simp only [hc] at h
    cases hd : unmarshalData c.dataShape message.ServerMemo.Data with
    | err e =>
      simp only [hd] at h
      exact GoResult.noConfusion h
    | panicked m =>
      simp only [hd] at h
      exact GoResult.noConfusion h
    | ok d0 =>
      simp only [hd] at h
      cases ha : applyUpdates c message.Fingerprint.Name message.Updates d0 with
      | err e =>
      simp only [ha] at h
      exact GoResult.noConfusion h
      | panicked m =>
      simp only [ha] at h
      exact GoResult.noConfusion h
      | ok d1 =>
        simp only [ha] at h
        refine ⟨⟨c, d0, d1, rfl, hd, ha⟩, ?_⟩
        cases hr : r.renderPartialFromDir "livewire" message.Fingerprint.Name d1
            message.Fingerprint.Method message.Fingerprint.Path with
        | err e =>
      simp only [hr] at h
      exact GoResult.noConfusion h
        | panicked m =>
      simp only [hr] at h
      exact GoResult.noConfusion h
        | ok out =>
          simp only [hr] at h
          by_cases hh : (message.ServerMemo.HTMLHash != htmlHash out) = true
          · rw [if_pos hh] at h
            cases hpre : unmarshalGenericMap message.ServerMemo.Data with
            | err e =>
      simp only [hpre] at h
      exact GoResult.noConfusion h
            | panicked m =>
      simp only [hpre] at h
      exact GoResult.noConfusion h
            | ok dataPre =>
              simp only [hpre] at h
              cases hpost : unmarshalGenericMap (marshalData d1) with
              | err e =>
      simp only [hpost] at h
      exact GoResult.noConfusion h
              | panicked m =>
      simp only [hpost] at h
      exact GoResult.noConfusion h
              | ok dataPost =>
                simp only [hpost] at h
                cases hhtml : updateHTML lib out
                    [("wire:id", message.Fingerprint.ID)] "" with
                | err e =>
                  simp only [hhtml] at h
                  exact GoResult.noConfusion h
                | panicked m =>
                  simp only [hhtml] at h
                  exact GoResult.noConfusion h
                | ok html2 =>
                  simp only [hhtml] at h
                  injection h with h
                  exact ⟨computeDirty dataPre dataPost, by rw [← h]⟩
          · rw [if_neg hh] at h
            injection h with h
            exact ⟨[], by rw [← h]⟩

theorem applyOneUpdate_syncInput (c : LivewireComponent) (n : String)
    (u : LivewireUpdate) (d : DataVal) (ht : u.typeTag = "syncInput") :
    applyOneUpdate c n u d =
      match unmarshalSyncInputPayload u.Payload with
      | .err e => .err (.failedUnmarshalPayload u.typeTag e)
      | .panicked m => .panicked m
      | .ok payload => setField c.dataShape d payload.name payload.value := by
  have h1 : (u.typeTag == "callMethod") = false := by simp [ht]
  have h2 : (u.typeTag == "syncInput") = true := by simp [ht]
  simp only [applyOneUpdate, h1, h2, Bool.false_eq_true, if_false, if_true]

theorem map_set_idem (name value : String) (d : DataVal) :
    (d.map (fun kv => if kv.fst == name then (kv.fst, GoVal.vstr value) else kv)).map
      (fun kv => if kv.fst == name then (kv.fst, GoVal.vstr value) else kv) =
    d.map (fun kv => if kv.fst == name then (kv.fst, GoVal.vstr value) else kv) := by
  rw [List.map_map]
  apply List.map_congr_left
  intro kv _
  by_cases h : (kv.fst == name) = true
  · simp only [Function.comp_apply]
    rw [if_pos h, if_pos h]
  · simp only [Function.comp_apply]
    rw [if_neg h, if_neg h]

theorem setField_idem {shape : DataShape} {d d' : DataVal} {name value : String}
    (h : setField shape d name value = .ok d') :
    setField shape d' name value = .ok d' := by
  unfold setField at h ⊢
  cases hl : lookupFieldType name shape with
  | none =>
    simp only [hl] at h
    exact GoResult.noConfusion h
  | some t =>
    cases t with
    | tint =>
      simp only [hl] at h
      exact GoResult.noConfusion h
    | tstr =>
      simp only [hl] at h ⊢
      injection h with h
      rw [← h, map_set_idem]

set_option maxRecDepth 40000

/-- A concrete goquery stand-in for the closed runs below: every fragment
parses to an attribute-less root carrying the fragment's bytes, and
serialization returns the carried bytes. -/
def testHtmlLib : HtmlLib :=
  { findRoot := fun bs => .ok { attrs := [], content := bs },
    outerHtml := fun e => .ok e.content }

/-- A concrete registered component in the style of the spec's Counter
example: an int field, a string field, a method that increments the
counter, and a method that fails. -/
def testCounter : LivewireComponent :=
  { dataShape := [("Count", FieldType.tint), ("Label", FieldType.tstr)],
    initialData := [("Count", GoVal.vint 0), ("Label", GoVal.vstr "")],
    methods :=
      [("Increment", fun _ => ([("Count", GoVal.vint 1), ("Label", GoVal.vstr "")], none)),
       ("Fail", fun d => (d, some (CErr.capabilityError "boom")))] }

/-- A concrete renderer whose template engine serializes the data value, so
that the markup changes whenever the data does. -/
def testRenderer : HTMLRenderer :=
  { livewireComponentByName := [("counter", testCounter)],
    renderPartialFromDir := fun _ _ d _ _ => .ok (asciiBytes (Json.render (marshalData d))) }

/-- A renderer with an empty registry. -/
def testEmptyRenderer : HTMLRenderer :=
  { livewireComponentByName := [],
    renderPartialFromDir := fun _ _ d _ _ => .ok (asciiBytes (Json.render (marshalData d))) }

def testFingerprint : LivewireFingerprint :=
  { ID := "instance1", Name := "counter", Locale := "en", Path := "/",
    Method := "GET", InvalidationHash := "aaa" }

/-- The markup of the initial render of testCounter under testRenderer. -/
def testInitOut : List Nat := asciiBytes (Json.render (marshalData testCounter.initialData))

/-- The echoed server memo of testCounter's initial render. -/
def testMemo : LivewireServerMemo :=
  { HTMLHash := htmlHash testInitOut, Data := marshalData testCounter.initialData,
    DataMeta := [], Children := [], Errors := [] }

def testIncrement : LivewireUpdate :=
  { typeTag := "callMethod",
    Payload := Json.obj [("id", Json.str "u1"), ("method", Json.str "Increment"),
      ("params", Json.arr [])] }

def testCallFail : LivewireUpdate :=
  { typeTag := "callMethod",
    Payload := Json.obj [("id", Json.str "u2"), ("method", Json.str "Fail"),
      ("params", Json.arr [])] }

def testSyncInputLabel : LivewireUpdate :=
  { typeTag := "syncInput",
    Payload := Json.obj [("id", Json.str "u3"), ("name", Json.str "Label"),
      ("value", Json.str "hello")] }

def testSyncInputMissing : LivewireUpdate :=
  { typeTag := "syncInput",
    Payload := Json.obj [("id", Json.str "u4"), ("name", Json.str "Missing"),
      ("value", Json.str "x")] }

def testBogus : LivewireUpdate := { typeTag := "bogus", Payload := Json.null }

/-- The data value after testIncrement runs. -/
def testData1 : DataVal := [("Count", GoVal.vint 1), ("Label", GoVal.vstr "")]

/-- The markup rendered from testData1. -/
def testOut1 : List Nat := asciiBytes (Json.render (marshalData testData1))

/-- The generic pre-update field map of testMemo.Data. -/
def testPre : List (String × Json) := [("Count", Json.num 0), ("Label", Json.str "")]

/-- The generic post-update field map after testIncrement. -/
def testPost : List (String × Json) := [("Count", Json.num 1), ("Label", Json.str "")]

/-- C1: in livewireUpdate, when the new markup hash differs from
serverMemo.htmlHash, the dirty set is the asymmetric shallow diff
computeDirty of the pre- and post-update field maps: a field name is in it
exactly when it is present pre-update and absent or deep-unequal
post-update; names only present post-update never appear; and the spec's
two examples compute to the singleton "b". -/
theorem c1_dirty_diff :
    (∀ (pre post : List (String × Json)), (pre.map Prod.fst).Nodup →
      ∀ k, k ∈ computeDirty pre post ↔ dirtyFieldSpec pre post k) ∧
    (∀ (pre post : List (String × Json)) (k : String),
      k ∈ computeDirty pre post → k ∈ pre.map Prod.fst) ∧
    computeDirty [("a", Json.num 1), ("b", Json.num 2)]
      [("a", Json.num 1), ("b", Json.num 3)] = ["b"] ∧
    computeDirty [("a", Json.num 1), ("b", Json.num 2)]
      [("a", Json.num 1)] = ["b"] ∧
    (∀ (lib : HtmlLib) (r : HTMLRenderer) (message : LivewireMessage)
      (c : LivewireComponent) (d0 d1 : DataVal) (out html2 : List Nat)
      (pre post : List (String × Json)),
      lookupComponent r message.Fingerprint.Name = some c →
      unmarshalData c.dataShape message.ServerMemo.Data = .ok d0 →
      applyUpdates c message.Fingerprint.Name message.Updates d0 = .ok d1 →
      r.renderPartialFromDir "livewire" message.Fingerprint.Name d1
        message.Fingerprint.Method message.Fingerprint.Path = .ok out →
      message.ServerMemo.HTMLHash ≠ htmlHash out →
      unmarshalGenericMap message.ServerMemo.Data = .ok pre →
      unmarshalGenericMap (marshalData d1) = .ok post →
      updateHTML lib out [("wire:id", message.Fingerprint.ID)] "" = .ok html2 →
      livewireUpdate lib r message = .ok
        { Effects := { Dirty := some (computeDirty pre post), HTML := html2 },
          ServerMemo := { HTMLHash := htmlHash out, Data := marshalData d1,
                          DataMeta := [], Children := [], Errors := [] } }) := by
  refine ⟨mem_computeDirty, computeDirty_subset, by decide, by decide, ?_⟩
  intro lib r message c d0 d1 out html2 pre post hc hd ha hr hh hpre hpost hhtml
  have hbne : (message.ServerMemo.HTMLHash != htmlHash out) = true := by
    simp only [bne_iff_ne, ne_eq]
    exact hh
  unfold livewireUpdate
  simp only [hc, hd, ha, hr, hbne, if_true, hpre, hpost, hhtml]

/-- C1 witness: the characterization and the pipeline conjunct at concrete
inputs. -/
theorem c1_dirty_diff_witness :
    (("b" ∈ computeDirty [("a", Json.num 1), ("b", Json.num 2)]
        [("a", Json.num 1), ("b", Json.num 3)]) ↔
      dirtyFieldSpec [("a", Json.num 1), ("b", Json.num 2)]
        [("a", Json.num 1), ("b", Json.num 3)] "b") ∧
    livewireUpdate testHtmlLib testRenderer
      { Fingerprint := testFingerprint, ServerMemo := testMemo,
        Updates := [testIncrement] } = .ok
      { Effects := { Dirty := some (computeDirty testPre testPost),
                     HTML := testOut1 ++ asciiBytes "\n\n" },
        ServerMemo := { HTMLHash := htmlHash testOut1, Data := marshalData testData1,
                        DataMeta := [], Children := [], Errors := [] } } :=
  ⟨c1_dirty_diff.1 _ _ (by decide) "b",
   c1_dirty_diff.2.2.2.2 testHtmlLib testRenderer
     { Fingerprint := testFingerprint, ServerMemo := testMemo,
       Updates := [testIncrement] }
     testCounter testCounter.initialData testData1 testOut1
     (testOut1 ++ asciiBytes "\n\n") testPre testPost
     rfl rfl rfl rfl (by decide) rfl rfl rfl⟩

/-- C2: round-trip — after a successful initial render of a registered
component, an update message with no updates whose fingerprint carries the
same name, method and path and whose serverMemo echoes the initial
render's markup hash and data document yields a response with the
initialized empty dirty list, the empty html fragment, and an unchanged
markup hash and data snapshot. -/
theorem c2_round_trip :
    ∀ (lib : HtmlLib) (r : HTMLRenderer) (randomness : Nat → Nat)
      (reqMethod reqPath name : String) (c : LivewireComponent)
      (out markup0 : List Nat),
      lookupComponent r name = some c →
      dataMatchesShape c.initialData c.dataShape →
      r.renderPartialFromDir "livewire" name c.initialData reqMethod reqPath = .ok out →
      livewireInitial lib r randomness reqMethod reqPath name = .ok markup0 →
      ∀ instanceId locale invalidationHash : String,
        livewireUpdate lib r
          { Fingerprint := { ID := instanceId, Name := name, Locale := locale,
                             Path := reqPath, Method := reqMethod,
                             InvalidationHash := invalidationHash },
            ServerMemo := { HTMLHash := htmlHash out, Data := marshalData c.initialData,
                            DataMeta := [], Children := [], Errors := [] },
            Updates := [] } =
        .ok { Effects := { Dirty := some [], HTML := [] },
              ServerMemo := { HTMLHash := htmlHash out, Data := marshalData c.initialData,
                              DataMeta := [], Children := [], Errors := [] } } := by
  intro lib r randomness reqMethod reqPath name c out markup0 hc hshape hr _ iid loc ih
  have hroundtrip := unmarshalData_marshalData hshape
  unfold livewireUpdate
  simp only [hc, hroundtrip, applyUpdates, hr, bne_self_eq_false, Bool.false_eq_true,
    if_false]

/-- C2 witness: the round trip at the concrete Counter fixture. -/
theorem c2_round_trip_witness :
    livewireUpdate testHtmlLib testRenderer
      { Fingerprint := { ID := "i", Name := "counter", Locale := "en", Path := "/",
                         Method := "GET", InvalidationHash := "aaa" },
        ServerMemo := { HTMLHash := htmlHash testInitOut,
                        Data := marshalData testCounter.initialData,
                        DataMeta := [], Children := [], Errors := [] },
        Updates := [] } =
    .ok { Effects := { Dirty := some [], HTML := [] },
          ServerMemo := { HTMLHash := htmlHash testInitOut,
                          Data := marshalData testCounter.initialData,
                          DataMeta := [], Children := [], Errors := [] } } :=
  c2_round_trip testHtmlLib testRenderer (fun _ => 0) "GET" "/" "counter" testCounter
    testInitOut
    (testInitOut ++ asciiBytes ("\n<!-- Livewire Component wire-end:aaaaaaaaaaaaaaaaaaaa -->\n"))
    rfl ⟨rfl, by decide⟩ rfl rfl "i" "en" "aaa"

/-- C3: atomicity — when any update in the sequence fails, livewireUpdate
returns that failure and no response: an error from the update loop is
returned unchanged; a callMethod whose method returns a non-nil error
turns into the "failed to call method on component" error wrapping the
component name and the payload; and a message whose update sequence
reaches such a callMethod makes the whole livewireUpdate return exactly
that wrapped error. -/
theorem c3_atomic_failure :
    (∀ (lib : HtmlLib) (r : HTMLRenderer) (message : LivewireMessage)
      (c : LivewireComponent) (d0 : DataVal) (e : CErr),
      lookupComponent r message.Fingerprint.Name = some c →
      unmarshalData c.dataShape message.ServerMemo.Data = .ok d0 →
      applyUpdates c message.Fingerprint.Name message.Updates d0 = .err e →
      livewireUpdate lib r message = .err e) ∧
    (∀ (c : LivewireComponent) (componentName : String) (u : LivewireUpdate)
      (d d2 : DataVal) (payload : LivewireUpdatePayloadCallMethod) (e : CErr),
      u.typeTag = "callMethod" →
      unmarshalCallMethodPayload u.Payload = .ok payload →
      callComponentMethod c payload.method d = .ok (d2, some e) →
      applyOneUpdate c componentName u d =
        .err (.failedCallMethod componentName payload e)) ∧
    (∀ (lib : HtmlLib) (r : HTMLRenderer) (message : LivewireMessage)
      (c : LivewireComponent) (d0 d1 d2 : DataVal)
      (us1 us2 : List LivewireUpdate) (u : LivewireUpdate)
      (payload : LivewireUpdatePayloadCallMethod) (e : CErr),
      message.Updates = us1 ++ u :: us2 →
      u.typeTag = "callMethod" →
      unmarshalCallMethodPayload u.Payload = .ok payload →
      lookupComponent r message.Fingerprint.Name = some c →
      unmarshalData c.dataShape message.ServerMemo.Data = .ok d0 →
      applyUpdates c message.Fingerprint.Name us1 d0 = .ok d1 →
      callComponentMethod c payload.method d1 = .ok (d2, some e) →
      livewireUpdate lib r message =
        .err (.failedCallMethod message.Fingerprint.Name payload e)) := by
  have hstep : ∀ (c : LivewireComponent) (componentName : String) (u : LivewireUpdate)
      (d d2 : DataVal) (payload : LivewireUpdatePayloadCallMethod) (e : CErr),
      u.typeTag = "callMethod" →
      unmarshalCallMethodPayload u.Payload = .ok payload →
      callComponentMethod c payload.method d = .ok (d2, some e) →
      applyOneUpdate c componentName u d =
        .err (.failedCallMethod componentName payload e) := by
    intro c componentName u d d2 payload e ht hp hm
    have h1 : (u.typeTag == "callMethod") = true := by simp [ht]
    simp only [applyOneUpdate, h1, if_true, hp, hm]
  have hprop : ∀ (lib : HtmlLib) (r : HTMLRenderer) (message : LivewireMessage)
      (c : LivewireComponent) (d0 : DataVal) (e : CErr),
      lookupComponent r message.Fingerprint.Name = some c →
      unmarshalData c.dataShape message.ServerMemo.Data = .ok d0 →
      applyUpdates c message.Fingerprint.Name message.Updates d0 = .err e →
      livewireUpdate lib r message = .err e := by
    intro lib r message c d0 e hc hd ha
    unfold livewireUpdate
    simp only [hc, hd, ha]
  refine ⟨hprop, hstep, ?_⟩
  intro lib r message c d0 d1 d2 us1 us2 u payload e hus ht hp hc hd h1 hm
  apply hprop lib r message c d0 _ hc hd
  rw [hus, applyUpdates_append, h1]
  simp only [applyUpdates, hstep c message.Fingerprint.Name u d1 d2 payload e ht hp hm]

/-- C3 witness: a failing method call aborts the whole update with the
wrapped error at the concrete fixture. -/
theorem c3_atomic_failure_witness :
    livewireUpdate testHtmlLib testRenderer
      { Fingerprint := testFingerprint, ServerMemo := testMemo,
        Updates := [testCallFail] } =
    .err (.failedCallMethod "counter"
      { id := "u2", method := "Fail", params := [] } (.capabilityError "boom")) :=
  c3_atomic_failure.2.2 testHtmlLib testRenderer
    { Fingerprint := testFingerprint, ServerMemo := testMemo,
      Updates := [testCallFail] }
    testCounter testCounter.initialData testCounter.initialData
    testCounter.initialData [] [] testCallFail
    { id := "u2", method := "Fail", params := [] } (.capabilityError "boom")
    rfl rfl rfl rfl rfl rfl rfl

/-- C4 counterexample: a SyncInput naming a field absent from the
component's declared data shape makes livewireUpdate abort with a
reflection panic; no error value is returned to the caller, so the claim
"the operation fails (returns an error to the caller)" is false on this
input. -/
theorem c4_sync_input_counterexample :
    livewireUpdate testHtmlLib testRenderer
      { Fingerprint := testFingerprint, ServerMemo := testMemo,
        Updates := [testSyncInputMissing] } =
      .panicked "reflect: call of reflect.Value.Set on zero Value" ∧
    ¬∃ e, livewireUpdate testHtmlLib testRenderer
      { Fingerprint := testFingerprint, ServerMemo := testMemo,
        Updates := [testSyncInputMissing] } = .err e := by
  have hrun : livewireUpdate testHtmlLib testRenderer
      { Fingerprint := testFingerprint, ServerMemo := testMemo,
        Updates := [testSyncInputMissing] } =
      .panicked "reflect: call of reflect.Value.Set on zero Value" := rfl
  refine ⟨hrun, ?_⟩
  rintro ⟨e, he⟩
  rw [hrun] at he
  exact GoResult.noConfusion he

/-- C4 (amended): a SyncInput processed by livewireUpdate assigns the
string value directly onto the named field when that field is declared
with string type — the named field ends up holding the value and every
other field is unchanged; when the named field does not exist on the
declared data shape, or is not string-typed (no coercion is attempted),
the reflection write panics rather than returning an error, and the panic
propagates out of livewireUpdate, producing no response and no returned
error value. -/
theorem c4_sync_input_reflection :
    (∀ (c : LivewireComponent) (componentName : String) (u : LivewireUpdate)
      (d : DataVal) (payload : LivewireUpdatePayloadSyncInput),
      u.typeTag = "syncInput" →
      unmarshalSyncInputPayload u.Payload = .ok payload →
      applyOneUpdate c componentName u d =
        setField c.dataShape d payload.name payload.value) ∧
    (∀ (shape : DataShape) (d d' : DataVal) (name value : String),
      lookupFieldType name shape = some FieldType.tstr →
      setField shape d name value = .ok d' →
      lookupGoVal name d' = (lookupGoVal name d).map (fun _ => GoVal.vstr value) ∧
      ∀ k, k ≠ name → lookupGoVal k d' = lookupGoVal k d) ∧
    (∀ (shape : DataShape) (d : DataVal) (name value : String),
      lookupFieldType name shape = none →
      setField shape d name value =
        .panicked "reflect: call of reflect.Value.Set on zero Value") ∧
    (∀ (shape : DataShape) (d : DataVal) (name value : String),
      lookupFieldType name shape = some FieldType.tint →
      setField shape d name value =
        .panicked "reflect.Set: value of type string is not assignable to type int") ∧
    (∀ (lib : HtmlLib) (r : HTMLRenderer) (message : LivewireMessage)
      (c : LivewireComponent) (d0 d1 : DataVal)
      (us1 us2 : List LivewireUpdate) (u : LivewireUpdate)
      (payload : LivewireUpdatePayloadSyncInput),
      message.Updates = us1 ++ u :: us2 →
      u.typeTag = "syncInput" →
      unmarshalSyncInputPayload u.Payload = .ok payload →
      lookupComponent r message.Fingerprint.Name = some c →
      unmarshalData c.dataShape message.ServerMemo.Data = .ok d0 →
      applyUpdates c message.Fingerprint.Name us1 d0 = .ok d1 →
      lookupFieldType payload.name c.dataShape = none →
      livewireUpdate lib r message =
        .panicked "reflect: call of reflect.Value.Set on zero Value" ∧
      ∀ e, livewireUpdate lib r message ≠ .err e) := by
  have hstep : ∀ (c : LivewireComponent) (componentName : String) (u : LivewireUpdate)
      (d : DataVal) (payload : LivewireUpdatePayloadSyncInput),
      u.typeTag = "syncInput" →
      unmarshalSyncInputPayload u.Payload = .ok payload →
      applyOneUpdate c componentName u d =
        setField c.dataShape d payload.name payload.value := by
    intro c componentName u d payload ht hp
    rw [applyOneUpdate_syncInput c componentName u d ht, hp]
  have hmissing : ∀ (shape : DataShape) (d : DataVal) (name value : String),
      lookupFieldType name shape = none →
      setField shape d name value =
        .panicked "reflect: call of reflect.Value.Set on zero Value" := by
    intro shape d name value hl
    simp only [setField, hl]
  refine ⟨hstep, ?_, hmissing, ?_, ?_⟩
  · intro shape d d' name value hty hset
    simp only [setField, hty] at hset
    injection hset with hset
    subst hset
    exact ⟨lookupGoVal_map_set name value d,
      fun k hk => lookupGoVal_map_set_ne name value k hk d⟩
  · intro shape d name value hl
    simp only [setField, hl]
  · intro lib r message c d0 d1 us1 us2 u payload hus ht hp hc hd h1 hl
    have hpanic : livewireUpdate lib r message =
        .panicked "reflect: call of reflect.Value.Set on zero Value" := by
      unfold livewireUpdate
      simp only [hc, hd, hus, applyUpdates_append, h1]
      simp only [applyUpdates, hstep c message.Fingerprint.Name u d1 payload ht hp,
        hmissing c.dataShape d1 payload.name payload.value hl]
    refine ⟨hpanic, ?_⟩
    intro e he
    rw [hpanic] at he
    exact GoResult.noConfusion he

/-- C4 witness: the amended behaviour at the concrete fixture — a
syncInput on the declared string field Label reduces to the field write,
the write puts the value in Label and leaves Count alone, and a syncInput
on a missing field panics through livewireUpdate. -/
theorem c4_sync_input_reflection_witness :
    applyOneUpdate testCounter "counter" testSyncInputLabel testCounter.initialData =
      setField testCounter.dataShape testCounter.initialData "Label" "hello" ∧
    lookupGoVal "Label" [("Count", GoVal.vint 0), ("Label", GoVal.vstr "hello")] =
      (lookupGoVal "Label" testCounter.initialData).map (fun _ => GoVal.vstr "hello") ∧
    livewireUpdate testHtmlLib testRenderer
      { Fingerprint := testFingerprint, ServerMemo := testMemo,
        Updates := [testSyncInputMissing] } =
      .panicked "reflect: call of reflect.Value.Set on zero Value" :=
  ⟨c4_sync_input_reflection.1 testCounter "counter" testSyncInputLabel
      testCounter.initialData { id := "u3", name := "Label", value := "hello" } rfl rfl,
   (c4_sync_input_reflection.2.1 testCounter.dataShape testCounter.initialData
      [("Count", GoVal.vint 0), ("Label", GoVal.vstr "hello")] "Label" "hello"
      rfl rfl).1,
   (c4_sync_input_reflection.2.2.2.2 testHtmlLib testRenderer
      { Fingerprint := testFingerprint, ServerMemo := testMemo,
        Updates := [testSyncInputMissing] }
      testCounter testCounter.initialData testCounter.initialData [] []
      testSyncInputMissing { id := "u4", name := "Missing", value := "x" }
      rfl rfl rfl rfl rfl rfl rfl).1⟩

/-- C5: an update whose type tag is neither "callMethod" nor "syncInput"
fails as "unknown update type" carrying the offending tag: the update
step returns exactly that error; the presence of such an update in a
message means livewireUpdate never returns a response; and when the
pipeline reaches the offending update (component found, data rehydrated,
all earlier updates succeeded), livewireUpdate returns exactly the
"unknown update type" error. -/
theorem c5_unknown_update_type :
    (∀ (c : LivewireComponent) (componentName : String) (u : LivewireUpdate)
      (d : DataVal),
      u.typeTag ≠ "callMethod" → u.typeTag ≠ "syncInput" →
      applyOneUpdate c componentName u d = .err (.unknownUpdateType u.typeTag)) ∧
    (∀ (lib : HtmlLib) (r : HTMLRenderer) (message : LivewireMessage)
      (u : LivewireUpdate),
      u ∈ message.Updates →
      u.typeTag ≠ "callMethod" → u.typeTag ≠ "syncInput" →
      ∀ resp, livewireUpdate lib r message ≠ .ok resp) ∧
    (∀ (lib : HtmlLib) (r : HTMLRenderer) (message : LivewireMessage)
      (c : LivewireComponent) (d0 d1 : DataVal)
      (us1 us2 : List LivewireUpdate) (u : LivewireUpdate),
      message.Updates = us1 ++ u :: us2 →
      u.typeTag ≠ "callMethod" → u.typeTag ≠ "syncInput" →
      lookupComponent r message.Fingerprint.Name = some c →
      unmarshalData c.dataShape message.ServerMemo.Data = .ok d0 →
      applyUpdates c message.Fingerprint.Name us1 d0 = .ok d1 →
      livewireUpdate lib r message = .err (.unknownUpdateType u.typeTag)) := by
  refine ⟨applyOneUpdate_unknown, ?_, ?_⟩
  · intro lib r message u hmem h1 h2 resp hok
    obtain ⟨⟨c, d0, d1, _, _, ha⟩, _⟩ := livewireUpdate_ok_inv hok
    exact applyUpdates_not_ok_of_mem c message.Fingerprint.Name u
      (fun d d2 hcon => by
        rw [applyOneUpdate_unknown c message.Fingerprint.Name u d h1 h2] at hcon
        exact GoResult.noConfusion hcon)
      message.Updates d0 d1 hmem ha
  · intro lib r message c d0 d1 us1 us2 u hus h1 h2 hc hd hok1
    unfold livewireUpdate
    simp only [hc, hd, hus, applyUpdates_append, hok1]
    simp only [applyUpdates,
      applyOneUpdate_unknown c message.Fingerprint.Name u d1 h1 h2]

/-- C5 witness: a "bogus" update at the concrete fixture. -/
theorem c5_unknown_update_type_witness :
    applyOneUpdate testCounter "counter" testBogus testCounter.initialData =
      .err (.unknownUpdateType "bogus") ∧
    livewireUpdate testHtmlLib testRenderer
      { Fingerprint := testFingerprint, ServerMemo := testMemo,
        Updates := [testBogus] } = .err (.unknownUpdateType "bogus") :=
  ⟨c5_unknown_update_type.1 testCounter "counter" testBogus testCounter.initialData
      (by decide) (by decide),
   c5_unknown_update_type.2.2 testHtmlLib testRenderer
      { Fingerprint := testFingerprint, ServerMemo := testMemo,
        Updates := [testBogus] }
      testCounter testCounter.initialData testCounter.initialData [] [] testBogus
      rfl (by decide) (by decide) rfl rfl rfl⟩

/-- C6: a component name absent from the registry makes both the initial
render and the update path fail with the "component does not exist" error
carrying that name, with no partial output. -/
theorem c6_unknown_component :
    (∀ (lib : HtmlLib) (r : HTMLRenderer) (randomness : Nat → Nat)
      (reqMethod reqPath name : String),
      lookupComponent r name = none →
      livewireInitial lib r randomness reqMethod reqPath name =
        .err (.componentDoesNotExist name)) ∧
    (∀ (lib : HtmlLib) (r : HTMLRenderer) (message : LivewireMessage),
      lookupComponent r message.Fingerprint.Name = none →
      livewireUpdate lib r message =
        .err (.componentDoesNotExist message.Fingerprint.Name)) := by
  constructor
  · intro lib r randomness reqMethod reqPath name hc
    unfold livewireInitial
    simp only [hc]
  · intro lib r message hc
    unfold livewireUpdate
    simp only [hc]

/-- C6 witness: both entry points at an empty registry. -/
theorem c6_unknown_component_witness :
    livewireInitial testHtmlLib testEmptyRenderer (fun _ => 0) "GET" "/" "nope" =
      .err (.componentDoesNotExist "nope") ∧
    livewireUpdate testHtmlLib testEmptyRenderer
      { Fingerprint := testFingerprint, ServerMemo := testMemo, Updates := [] } =
      .err (.componentDoesNotExist "counter") :=
  ⟨c6_unknown_component.1 testHtmlLib testEmptyRenderer (fun _ => 0) "GET" "/" "nope" rfl,
   c6_unknown_component.2 testHtmlLib testEmptyRenderer
     { Fingerprint := testFingerprint, ServerMemo := testMemo, Updates := [] } rfl⟩

/-- C7 counterexample: two byte-distinct fragments whose htmlHash tokens
coincide (a CRC-32 collision), refuting "for every pair of fragments
differing in any byte the tokens differ". -/
theorem c7_hash_counterexample :
    asciiBytes "plumless" ≠ asciiBytes "buckeroo" ∧
    htmlHash (asciiBytes "plumless") = htmlHash (asciiBytes "buckeroo") := by
  constructor
  · decide
  · decide

/-- C7 (amended): htmlHash is a function of the markup's raw bytes
producing a fixed-width 8-character token of lowercase hexadecimal
digits; byte-identical fragments always yield equal tokens, but distinct
fragments may collide, the token being a 32-bit checksum. -/
theorem c7_hash_fixed_width :
    (∀ a b : List Nat, a = b → htmlHash a = htmlHash b) ∧
    (∀ bs : List Nat, (htmlHash bs).length = 8 ∧
      ∀ ch ∈ (htmlHash bs).data, ch ∈ hexAlphabet) :=
  ⟨fun _ _ h => h ▸ rfl, fun bs => ⟨htmlHash_length bs, htmlHash_chars bs⟩⟩

/-- C7 witness: the token facts at a concrete fragment, the equal-bytes
hypothesis discharged by rfl. -/
theorem c7_hash_fixed_width_witness :
    htmlHash (asciiBytes "<div></div>") = htmlHash (asciiBytes "<div></div>") ∧
    (htmlHash (asciiBytes "<div></div>")).length = 8 :=
  ⟨c7_hash_fixed_width.1 (asciiBytes "<div></div>") (asciiBytes "<div></div>") rfl,
   (c7_hash_fixed_width.2 (asciiBytes "<div></div>")).1⟩

/-- C8: idempotence of SyncInput — for every data value, running the same
syncInput update twice through the update loop leaves exactly the state
of running it once, and the whole livewireUpdate on a message carrying
the update twice equals livewireUpdate on the message carrying it
once. -/
theorem c8_sync_input_idempotent :
    ∀ u : LivewireUpdate, u.typeTag = "syncInput" →
      (∀ (c : LivewireComponent) (componentName : String) (d : DataVal),
        applyUpdates c componentName [u, u] d = applyUpdates c componentName [u] d) ∧
      (∀ (lib : HtmlLib) (r : HTMLRenderer) (fp : LivewireFingerprint)
        (memo : LivewireServerMemo),
        livewireUpdate lib r { Fingerprint := fp, ServerMemo := memo, Updates := [u, u] } =
        livewireUpdate lib r { Fingerprint := fp, ServerMemo := memo, Updates := [u] }) := by
  intro u ht
  have hone : ∀ (c : LivewireComponent) (componentName : String) (d d' : DataVal),
      applyOneUpdate c componentName u d = .ok d' →
      applyOneUpdate c componentName u d' = .ok d' := by
    intro c componentName d d' h
    rw [applyOneUpdate_syncInput c componentName u d ht] at h
    rw [applyOneUpdate_syncInput c componentName u d' ht]
    cases hp : unmarshalSyncInputPayload u.Payload with
    | err e =>
      simp only [hp] at h
      exact GoResult.noConfusion h
    | panicked m =>
      simp only [hp] at h
      exact GoResult.noConfusion h
    | ok payload =>
      simp only [hp] at h ⊢
      exact setField_idem h
  have happ : ∀ (c : LivewireComponent) (componentName : String) (d : DataVal),
      applyUpdates c componentName [u, u] d = applyUpdates c componentName [u] d := by
    intro c componentName d
    simp only [applyUpdates]
    cases h1 : applyOneUpdate c componentName u d with
    | err e => rfl
    | panicked m => rfl
    | ok d' =>
      simp only [hone c componentName d d' h1, applyUpdates]
  refine ⟨happ, ?_⟩
  intro lib r fp memo
  unfold livewireUpdate
  cases hc : lookupComponent r fp.Name with
  | none => rfl
  | some c =>
    simp only
    cases hd : unmarshalData c.dataShape memo.Data with
    | err e => rfl
    | panicked m => rfl
    | ok d0 => simp only [happ c fp.Name d0]

/-- C8 witness: the idempotence at the concrete fixture. -/
theorem c8_sync_input_idempotent_witness :
    applyUpdates testCounter "counter" [testSyncInputLabel, testSyncInputLabel]
      testCounter.initialData =
    applyUpdates testCounter "counter" [testSyncInputLabel] testCounter.initialData ∧
    livewireUpdate testHtmlLib testRenderer
      { Fingerprint := testFingerprint, ServerMemo := testMemo,
        Updates := [testSyncInputLabel, testSyncInputLabel] } =
    livewireUpdate testHtmlLib testRenderer
      { Fingerprint := testFingerprint, ServerMemo := testMemo,
        Updates := [testSyncInputLabel] } :=
  ⟨(c8_sync_input_idempotent testSyncInputLabel rfl).1 testCounter "counter"
      testCounter.initialData,
   (c8_sync_input_idempotent testSyncInputLabel rfl).2 testHtmlLib testRenderer
      testFingerprint testMemo⟩

/-- C9: every successful livewireUpdate response carries an initialized
dirty list — Dirty is some list (possibly empty, as on the unchanged-hash
path), never the nil slice that would serialize as a JSON null. -/
theorem c9_dirty_initialized :
    ∀ (lib : HtmlLib) (r : HTMLRenderer) (message : LivewireMessage)
      (resp : LivewireMessageResponse),
      livewireUpdate lib r message = .ok resp →
      ∃ l, resp.Effects.Dirty = some l :=
  fun _ _ _ _ h => (livewireUpdate_ok_inv h).2

/-- C9 witness: the no-update round trip at the concrete fixture returns a
response whose dirty list is initialized. -/
theorem c9_dirty_initialized_witness :
    ∃ l, (LivewireMessageResponse.mk
      { Dirty := some [], HTML := [] }
      { HTMLHash := htmlHash testInitOut, Data := marshalData testCounter.initialData,
        DataMeta := [], Children := [], Errors := [] }).Effects.Dirty = some l :=
  c9_dirty_initialized testHtmlLib testRenderer
    { Fingerprint := testFingerprint, ServerMemo := testMemo, Updates := [] }
    (LivewireMessageResponse.mk
      { Dirty := some [], HTML := [] }
      { HTMLHash := htmlHash testInitOut, Data := marshalData testCounter.initialData,
        DataMeta := [], Children := [], Errors := [] })
    rfl

theorem generateRandomString_length (randomness : Nat → Nat) (n : Nat) :
    (generateRandomString randomness n).length = n := by
  simp [generateRandomString, String.length]

/-- The id field of the fingerprint inside a serialized envelope
document. -/
def envelopeFingerprintId (j : Json) : Option Json :=
  match j with
  | Json.obj fields =>
    match lookupField "fingerprint" fields with
    | some (Json.obj fpFields) => lookupField "id" fpFields
    | _ => none
  | _ => none

/-- C10: every successful livewireInitial run generates one 20-character
id and uses it consistently in the three places it appears: the wire:id
attribute set on the root element, the fingerprint.id inside the
wire:initial-data envelope, and the trailing end-marker comment appended
after the serialized root. -/
theorem c10_initial_id_consistent :
    ∀ (lib : HtmlLib) (r : HTMLRenderer) (randomness : Nat → Nat)
      (reqMethod reqPath name : String) (html : List Nat),
      livewireInitial lib r randomness reqMethod reqPath name = .ok html →
      (generateRandomString randomness 20).length = 20 ∧
      ∃ (c : LivewireComponent) (out : List Nat) (root : HtmlElem) (ser : List Nat),
        lookupComponent r name = some c ∧
        r.renderPartialFromDir "livewire" name c.initialData reqMethod reqPath = .ok out ∧
        lib.findRoot out = .ok root ∧
        lib.outerHtml (setAttrs root
          [("wire:id", generateRandomString randomness 20),
           ("wire:initial-data", Json.render (initialDataEnvelope
             (generateRandomString randomness 20) name "en" reqPath reqMethod "aaa"
             (htmlHash out) (marshalData c.initialData)))]) = .ok ser ∧
        html = ser ++ asciiBytes ("\n" ++
          ("<!-- Livewire Component wire-end:" ++ generateRandomString randomness 20 ++
            " -->") ++ "\n") ∧
        assocLookup "wire:id" (setAttrs root
          [("wire:id", generateRandomString randomness 20),
           ("wire:initial-data", Json.render (initialDataEnvelope
             (generateRandomString randomness 20) name "en" reqPath reqMethod "aaa"
             (htmlHash out) (marshalData c.initialData)))]).attrs =
          some (generateRandomString randomness 20) ∧
        envelopeFingerprintId (initialDataEnvelope
          (generateRandomString randomness 20) name "en" reqPath reqMethod "aaa"
          (htmlHash out) (marshalData c.initialData)) =
          some (Json.str (generateRandomString randomness 20)) := by
  intro lib r randomness reqMethod reqPath name html h
  refine ⟨generateRandomString_length randomness 20, ?_⟩
  unfold livewireInitial at h
  cases hc : lookupComponent r name with
  | none =>
    simp only [hc] at h
    exact GoResult.noConfusion h
  | some c =>
    simp only [hc] at h
    cases hr : r.renderPartialFromDir "livewire" name c.initialData reqMethod reqPath with
    | err e =>
      simp only [hr] at h
      exact GoResult.noConfusion h
    | panicked m =>
      simp only [hr] at h
      exact GoResult.noConfusion h
    | ok out =>
      simp only [hr] at h
      unfold updateHTML at h
      cases hroot : lib.findRoot out with
      | err e =>
        simp only [hroot] at h
        exact GoResult.noConfusion h
      | panicked m =>
        simp only [hroot] at h
        exact GoResult.noConfusion h
      | ok root =>
        simp only [hroot] at h
        cases hser : lib.outerHtml (setAttrs root
            [("wire:id", generateRandomString randomness 20),
             ("wire:initial-data", Json.render (initialDataEnvelope
               (generateRandomString randomness 20) name "en" reqPath reqMethod "aaa"
               (htmlHash out) (marshalData c.initialData)))]) with
        | err e =>
          simp only [hser] at h
          exact GoResult.noConfusion h
        | panicked m =>
          simp only [hser] at h
          exact GoResult.noConfusion h
        | ok ser =>
          simp only [hser] at h
          injection h with h
          have hattr : assocLookup "wire:id" (setAttrs root
              [("wire:id", generateRandomString randomness 20),
               ("wire:initial-data", Json.render (initialDataEnvelope
                 (generateRandomString randomness 20) name "en" reqPath reqMethod "aaa"
                 (htmlHash out) (marshalData c.initialData)))]).attrs =
              some (generateRandomString randomness 20) := by
            show assocLookup "wire:id" (setAttr
              (setAttr root "wire:id" (generateRandomString randomness 20))
              "wire:initial-data" (Json.render (initialDataEnvelope
                (generateRandomString randomness 20) name "en" reqPath reqMethod "aaa"
                (htmlHash out) (marshalData c.initialData)))).attrs =
              some (generateRandomString randomness 20)
            rw [assocLookup_setAttr_other "wire:id" "wire:initial-data" _ (by decide)]
            exact assocLookup_setAttr_self "wire:id" (generateRandomString randomness 20)
              root

          exact ⟨c, out, root, ser, rfl, hr, hroot, hser, h.symm, hattr, rfl⟩

/-- C10 witness: the id consistency facts at a concrete successful
initial render. -/
theorem c10_initial_id_consistent_witness :
    (generateRandomString (fun _ => 0) 20).length = 20 ∧
    ∃ (c : LivewireComponent) (out : List Nat) (root : HtmlElem) (ser : List Nat),
      lookupComponent testRenderer "counter" = some c ∧
      testRenderer.renderPartialFromDir "livewire" "counter" c.initialData "GET" "/" =
        .ok out ∧
      testHtmlLib.findRoot out = .ok root ∧
      testHtmlLib.outerHtml (setAttrs root
        [("wire:id", generateRandomString (fun _ => 0) 20),
         ("wire:initial-data", Json.render (initialDataEnvelope
           (generateRandomString (fun _ => 0) 20) "counter" "en" "/" "GET" "aaa"
           (htmlHash out) (marshalData c.initialData)))]) = .ok ser ∧
      testInitOut ++ asciiBytes ("\n" ++
        ("<!-- Livewire Component wire-end:" ++ generateRandomString (fun _ => 0) 20 ++
          " -->") ++ "\n") = ser ++ asciiBytes ("\n" ++
        ("<!-- Livewire Component wire-end:" ++ generateRandomString (fun _ => 0) 20 ++
          " -->") ++ "\n") ∧
      assocLookup "wire:id" (setAttrs root
        [("wire:id", generateRandomString (fun _ => 0) 20),
         ("wire:initial-data", Json.render (initialDataEnvelope
           (generateRandomString (fun _ => 0) 20) "counter" "en" "/" "GET" "aaa"
           (htmlHash out) (marshalData c.initialData)))]).attrs =
        some (generateRandomString (fun _ => 0) 20) ∧
      envelopeFingerprintId (initialDataEnvelope
        (generateRandomString (fun _ => 0) 20) "counter" "en" "/" "GET" "aaa"
        (htmlHash out) (marshalData c.initialData)) =
        some (Json.str (generateRandomString (fun _ => 0) 20)) :=
  c10_initial_id_consistent testHtmlLib testRenderer (fun _ => 0) "GET" "/" "counter"
    (testInitOut ++ asciiBytes ("\n" ++
      ("<!-- Livewire Component wire-end:" ++ generateRandomString (fun _ => 0) 20 ++
        " -->") ++ "\n"))
    rfl
